import Mathlib

/-! Verification of the freely repository's configuration bootstrapping code.

The model covers two source files:

* `src-tauri/src/claude_config.rs` — seeds a `.claude/` directory under the
  app's local data directory with default `CLAUDE.md` and `settings.json`
  files (only when absent) and exposes read/update accessors for `CLAUDE.md`.
* `src-tauri/src/db/main.rs` — `migrate_legacy_db` renames `pluely.db` to
  `freely.db` in the app data directory, guarded by existence checks, logging
  failures instead of propagating them.

The filesystem is modelled as a map from paths (lists of components) to
optional file contents together with a directory flag per path.  Operating
system failures (disk errors and the like) are modelled by an oracle `IOEnv`
that tells each primitive whether it fails and with which OS error text; the
host's path-resolution service is modelled by an `Except String FsPath`
argument where the Rust code consults `app.path()`. -/

/-- A filesystem path, as a list of components relative to the model root. -/
abbrev FsPath := List String

/-- Model filesystem state: file contents per path, and a directory flag per
path.  `FS.empty` is the blank state used by concrete test fixtures. -/
@[ext] structure FS where
  file : FsPath → Option String
  isDir : FsPath → Bool

/-- The blank filesystem. -/
def FS.empty : FS := { file := fun _ => none, isDir := fun _ => false }

/-- Model of Rust's `Path::exists`: true when a file or a directory occupies
the path. -/
def FS.pathExists (fs : FS) (p : FsPath) : Bool :=
  (fs.file p).isSome || fs.isDir p

/-- Model of `std::fs::create_dir_all`: marks the target path and every
ancestor (prefix) as a directory. -/
def FS.createDirAll (fs : FS) (p : FsPath) : FS :=
  { fs with isDir := fun q => fs.isDir q || q.isPrefixOf p }

/-- Model of `std::fs::write`: replaces the contents at exactly one path. -/
def FS.writeFile (fs : FS) (p : FsPath) (c : String) : FS :=
  { fs with file := fun q => if q = p then some c else fs.file q }

/-- Model of `std::fs::rename`: the whole subtree rooted at `src` moves to
`dst`; paths rooted at `src` become empty. -/
def FS.rename (fs : FS) (src dst : FsPath) : FS :=
  { file := fun q =>
      if dst.isPrefixOf q then fs.file (src ++ q.drop dst.length)
      else if src.isPrefixOf q then none
      else fs.file q,
    isDir := fun q =>
      if dst.isPrefixOf q then fs.isDir (src ++ q.drop dst.length)
      else if src.isPrefixOf q then false
      else fs.isDir q }

/-- Failure oracle for the OS-level primitives: `some e` means the primitive
fails and the OS reports error text `e`; `none` means it succeeds.
`notFoundMsg` is the OS text reported when reading a missing file. -/
structure IOEnv where
  createDirErr : Option String
  writeErr : FsPath → Option String
  readErr : Option String
  renameErr : Option String
  notFoundMsg : String

/-- The oracle under which every primitive succeeds. -/
def IOEnv.ok : IOEnv :=
  { createDirErr := none, writeErr := fun _ => none, readErr := none,
    renameErr := none, notFoundMsg := "No such file or directory (os error 2)" }

/-- Default `CLAUDE.md` content, transcribed from `DEFAULT_CLAUDE_MD` in
`claude_config.rs`. -/
def DEFAULT_CLAUDE_MD : String :=
  "# Freely Assistant\n\nYou are an AI coding assistant running inside Freely, a desktop development tool.\n\n## Context\n- You are running as an agent provider inside the Freely desktop app\n- The user interacts with you through Freely's chat interface\n- You have access to the user's filesystem through Claude Code's built-in tools\n\n## Guidelines\n- Be concise and helpful\n- Focus on the user's coding task\n- When modifying files, explain what you changed and why\n- Respect the user's project structure and conventions\n"

/-- Default `settings.json` content, transcribed from `DEFAULT_SETTINGS_JSON`
in `claude_config.rs` (braces written with hex escapes). -/
def DEFAULT_SETTINGS_JSON : String :=
  "\x7b\n  \"permissions\": \x7b\n    \"allow\": [\"Read\", \"Glob\", \"Grep\", \"Bash(git status)\", \"Bash(git diff)\"],\n    \"deny\": []\n  \x7d\n\x7d\n"

/-- One first-run seeding step of `init_claude_config_in`: write the default
content only when nothing exists at the path, surfacing a write failure as
the raw OS error. -/
def writeIfAbsent (env : IOEnv) (p : FsPath) (c : String) (fs : FS) :
    Except String FS :=
  if fs.pathExists p then .ok fs
  else
    match env.writeErr p with
    | some e => .error e
    | none => .ok (fs.writeFile p c)

/-- Model of `init_claude_config_in` (`claude_config.rs`, lines 51-72):
creates `data_dir/.claude` (and ancestors), seeds `CLAUDE.md` and
`settings.json` only when absent, maps each failure to a descriptive message
and returns the `.claude` directory path. -/
def init_claude_config_in (env : IOEnv) (data_dir : FsPath) (fs : FS) :
    Except String (FsPath × FS) :=
  let claude_dir := data_dir ++ [".claude"]
  match env.createDirErr with
  | some e => .error ("Failed to create .claude directory: " ++ e)
  | none =>
    let fs1 := fs.createDirAll claude_dir
    match writeIfAbsent env (claude_dir ++ ["CLAUDE.md"]) DEFAULT_CLAUDE_MD fs1 with
    | .error e => .error ("Failed to write CLAUDE.md: " ++ e)
    | .ok fs2 =>
      match writeIfAbsent env (claude_dir ++ ["settings.json"]) DEFAULT_SETTINGS_JSON fs2 with
      | .error e => .error ("Failed to write settings.json: " ++ e)
      | .ok fs3 => .ok (claude_dir, fs3)

/-- Model of `std::fs::read_to_string`: fails with the OS not-found text when
no file occupies the path, otherwise fails when the read oracle says so,
otherwise returns the content.  Reading never changes the filesystem. -/
def fsReadToString (env : IOEnv) (p : FsPath) (fs : FS) : Except String String :=
  match fs.file p with
  | none => .error env.notFoundMsg
  | some c =>
    match env.readErr with
    | some e => .error e
    | none => .ok c

/-- Model of `get_claude_md` (`claude_config.rs`, lines 76-86): resolve the
data directory, read `.claude/CLAUDE.md`, and surface failures as descriptive
strings.  The returned filesystem is the state after the call. -/
def get_claude_md (resolve : Except String FsPath) (env : IOEnv) (fs : FS) :
    Except String String × FS :=
  match resolve with
  | .error e => (.error ("Could not resolve app_local_data_dir: " ++ e), fs)
  | .ok data_dir =>
    let claude_md_path := data_dir ++ [".claude", "CLAUDE.md"]
    match fsReadToString env claude_md_path fs with
    | .error e => (.error ("Failed to read CLAUDE.md: " ++ e), fs)
    | .ok c => (.ok c, fs)

/-- Model of `update_claude_md` (`claude_config.rs`, lines 90-105): resolve
the data directory, re-create `.claude` if missing, then overwrite
`CLAUDE.md` unconditionally with `content`.  Returns the new filesystem in
place of Rust's `Ok(())`. -/
def update_claude_md (resolve : Except String FsPath) (env : IOEnv)
    (content : String) (fs : FS) : Except String FS :=
  match resolve with
  | .error e => .error ("Could not resolve app_local_data_dir: " ++ e)
  | .ok data_dir =>
    let claude_dir := data_dir ++ [".claude"]
    match env.createDirErr with
    | some e => .error ("Failed to create .claude directory: " ++ e)
    | none =>
      let fs1 := fs.createDirAll claude_dir
      let claude_md_path := claude_dir ++ ["CLAUDE.md"]
      match env.writeErr claude_md_path with
      | some e => .error ("Failed to write CLAUDE.md: " ++ e)
      | none => .ok (fs1.writeFile claude_md_path content)

/-- Model of `migrate_legacy_db` (`db/main.rs`, lines 13-31): resolve the
app data directory, and rename `pluely.db` to `freely.db` only when the old
store exists and the new one does not.  The function is total — every failure
is turned into a log line (second component) and the filesystem is returned
unchanged; nothing is raised. -/
def migrate_legacy_db (resolve : Except String FsPath) (env : IOEnv) (fs : FS) :
    FS × List String :=
  match resolve with
  | .error e =>
    (fs, ["[db] Could not resolve app data directory for legacy migration: " ++ e])
  | .ok data_dir =>
    let old_path := data_dir ++ ["pluely.db"]
    let new_path := data_dir ++ ["freely.db"]
    if fs.pathExists old_path && !(fs.pathExists new_path) then
      match env.renameErr with
      | some e => (fs, ["[db] Failed to rename pluely.db → freely.db: " ++ e])
      | none => (fs.rename old_path new_path, ["[db] Migrated pluely.db → freely.db"])
    else (fs, [])

/-- Pure success-path state of one seeding step: write the default content
only when nothing occupies the path. -/
def seedFile (p : FsPath) (c : String) (fs : FS) : FS :=
  if fs.pathExists p then fs else fs.writeFile p c

/-- Pure success-path state transformer of `init_claude_config_in`: the
filesystem produced by a successful call. -/
def initPure (d : FsPath) (fs : FS) : FS :=
  seedFile (d ++ [".claude"] ++ ["settings.json"]) DEFAULT_SETTINGS_JSON
    (seedFile (d ++ [".claude"] ++ ["CLAUDE.md"]) DEFAULT_CLAUDE_MD
      (fs.createDirAll (d ++ [".claude"])))

/-- JSON values, used to state the shape of the default settings document. -/
inductive Json where
  | null
  | bool (b : Bool)
  | num (n : Int)
  | str (s : String)
  | arr (xs : List Json)
  | obj (fields : List (String × Json))

/-- Is `c` JSON whitespace? -/
def isWsChar (c : Char) : Bool :=
  c = ' ' || c = '\n' || c = '\t' || c = '\r'

/-- Drop leading JSON whitespace. -/
def skipWs : List Char → List Char
  | [] => []
  | c :: rest => if isWsChar c then skipWs rest else c :: rest

/-- Decode one escape character of a JSON string literal. -/
def escChar (c : Char) : Option Char :=
  if c = '"' then some '"'
  else if c = '\\' then some '\\'
  else if c = '/' then some '/'
  else if c = 'n' then some '\n'
  else if c = 't' then some '\t'
  else if c = 'r' then some '\r'
  else none

/-- Consume the body of a JSON string after the opening quote, returning the
decoded characters and the input following the closing quote. -/
def strBody : List Char → Option (List Char × List Char)
  | [] => none
  | '"' :: rest => some ([], rest)
  | '\\' :: rest =>
    match rest with
    | [] => none
    | e :: rest2 =>
      match escChar e with
      | none => none
      | some c =>
        match strBody rest2 with
        | none => none
        | some (cs, r) => some (c :: cs, r)
  | c :: rest =>
    match strBody rest with
    | none => none
    | some (cs, r) => some (c :: cs, r)

/-- Split leading decimal digits from the input. -/
def takeDigits : List Char → List Char × List Char
  | [] => ([], [])
  | c :: rest =>
    if c.isDigit then
      match takeDigits rest with
      | (ds, r) => (c :: ds, r)
    else ([], c :: rest)

/-- Numeric value of a run of decimal digits. -/
def digitsVal (ds : List Char) : Nat :=
  ds.foldl (fun a c => a * 10 + (c.toNat - 48)) 0

/-- Parsing mode of the JSON parsing core. -/
inductive PMode where
  | val
  | items
  | fields

/-- Result of one JSON parsing-core step. -/
inductive PRes where
  | v (j : Json)
  | items (js : List Json)
  | fields (fs : List (String × Json))

/-- Fuel-bounded JSON parsing core.  `PMode.val` parses one value;
`PMode.items` parses the comma-separated items of a non-empty array up to the
closing bracket; `PMode.fields` parses the members of a non-empty object up
to the closing brace. -/
def jsonCore : Nat → PMode → List Char → Option (PRes × List Char)
  | 0, _, _ => none
  | fuel + 1, PMode.val, input =>
    match skipWs input with
    | [] => none
    | c :: rest =>
      if c = '\x7b' then
        match skipWs rest with
        | '\x7d' :: r => some (.v (.obj []), r)
        | r2 =>
          match jsonCore fuel PMode.fields r2 with
          | some (.fields fs, r) => some (.v (.obj fs), r)
          | _ => none
      else if c = '[' then
        match skipWs rest with
        | ']' :: r => some (.v (.arr []), r)
        | r2 =>
          match jsonCore fuel PMode.items r2 with
          | some (.items js, r) => some (.v (.arr js), r)
          | _ => none
      else if c = '"' then
        match strBody rest with
        | some (cs, r) => some (.v (.str (String.mk cs)), r)
        | none => none
      else if c = 't' then
        match rest with
        | 'r' :: 'u' :: 'e' :: r => some (.v (.bool true), r)
        | _ => none
      else if c = 'f' then
        match rest with
        | 'a' :: 'l' :: 's' :: 'e' :: r => some (.v (.bool false), r)
        | _ => none
      else if c = 'n' then
        match rest with
        | 'u' :: 'l' :: 'l' :: r => some (.v .null, r)
        | _ => none
      else if c = '-' then
        match takeDigits rest with
        | ([], _) => none
        | (ds, r) => some (.v (.num (-(Int.ofNat (digitsVal ds)))), r)
      else if c.isDigit then
        match takeDigits (c :: rest) with
        | ([], _) => none
        | (ds, r) => some (.v (.num (Int.ofNat (digitsVal ds))), r)
      else none
  | fuel + 1, PMode.items, input =>
    match jsonCore fuel PMode.val input with
    | some (.v j, r1) =>
      (match skipWs r1 with
       | ',' :: r2 =>
         match jsonCore fuel PMode.items r2 with
         | some (.items js, r) => some (.items (j :: js), r)
         | _ => none
       | ']' :: r2 => some (.items [j], r2)
       | _ => none)
    | _ => none
  | fuel + 1, PMode.fields, input =>
    match skipWs input with
    | '"' :: rest =>
      match strBody rest with
      | none => none
      | some (kcs, r1) =>
        match skipWs r1 with
        | ':' :: r2 =>
          match jsonCore fuel PMode.val r2 with
          | some (.v j, r3) =>
            (match skipWs r3 with
             | ',' :: r4 =>
               match jsonCore fuel PMode.fields r4 with
               | some (.fields fs, r) => some (.fields ((String.mk kcs, j) :: fs), r)
               | _ => none
             | '\x7d' :: r4 => some (.fields [(String.mk kcs, j)], r4)
             | _ => none)
          | _ => none
        | _ => none
    | _ => none

/-- Parse a complete JSON document: one value surrounded only by whitespace. -/
def Json.parse (s : String) : Option Json :=
  match jsonCore (2 * s.length + 8) PMode.val s.data with
  | some (.v j, rest) => if skipWs rest = [] then some j else none
  | _ => none

/-- Look up a key among parsed object members (first match). -/
def lookupField : List (String × Json) → String → Option Json
  | [], _ => none
  | (k, v) :: rest, key => if k = key then some v else lookupField rest key

/-- Are all elements JSON strings? -/
def allStrings : List Json → Bool
  | [] => true
  | Json.str _ :: rest => allStrings rest
  | _ => false

/-- Check that `v` is an object with a `permissions` member whose value has
`allow` and `deny` members, each an array of strings. -/
def settingsShape (v : Json) : Bool :=
  match v with
  | Json.obj fields =>
    match lookupField fields "permissions" with
    | some (Json.obj ps) =>
      (match lookupField ps "allow" with
       | some (Json.arr xs) => allStrings xs
       | _ => false)
      &&
      (match lookupField ps "deny" with
       | some (Json.arr ys) => allStrings ys
       | _ => false)
    | _ => false
  | _ => false

/-- The `.claude` directory path used by the concrete fixtures. -/
def cdW : FsPath := ["d"] ++ [".claude"]

/-- The `CLAUDE.md` path of the fixtures. -/
def mdW : FsPath := cdW ++ ["CLAUDE.md"]

/-- The `settings.json` path of the fixtures. -/
def sjW : FsPath := cdW ++ ["settings.json"]

/-- Filesystem produced by a first successful run on the blank filesystem. -/
def fsSeeded : FS :=
  ((FS.empty.createDirAll cdW).writeFile mdW DEFAULT_CLAUDE_MD).writeFile sjW
    DEFAULT_SETTINGS_JSON

/-- A store holding only the legacy database file. -/
def fsLegacy : FS :=
  { file := fun p => if p = ["d", "pluely.db"] then some "LEGACY-DATA" else none,
    isDir := fun _ => false }

/-- A store holding both the legacy and the new database files. -/
def fsBoth : FS :=
  { file := fun p =>
      if p = ["d", "pluely.db"] then some "LEGACY-DATA"
      else if p = ["d", "freely.db"] then some "NEW-DATA"
      else none,
    isDir := fun _ => false }

/-- A filesystem holding a user-created skill file inside `.claude/commands`. -/
def fsCanary : FS :=
  { file := fun p =>
      if p = ["d", ".claude", "commands", "canary.md"] then some "# Canary Skill"
      else none,
    isDir := fun p =>
      p == ["d", ".claude", "commands"] || p == ["d", ".claude"] || p == ["d"] }

/-- Oracle under which directory creation fails with a disk error. -/
def envCreateFail : IOEnv := { IOEnv.ok with createDirErr := some "disk full" }

/-- Oracle under which every file write fails with a permission error. -/
def envWriteFail : IOEnv := { IOEnv.ok with writeErr := fun _ => some "permission denied" }

/-- Oracle under which reads of existing files fail with an input error. -/
def envReadFail : IOEnv := { IOEnv.ok with readErr := some "input error" }

/-- Oracle under which rename fails with a cross-device error. -/
def envRenameFail : IOEnv := { IOEnv.ok with renameErr := some "cross-device link" }

theorem isPrefixOf_self (l : FsPath) : l.isPrefixOf l = true := by
  induction l with
  | nil => rfl
  | cons a t ih => simp [List.isPrefixOf, ih]

theorem append_singleton_isPrefixOf_false (l : FsPath) (x : String) :
    (l ++ [x]).isPrefixOf l = false := by
  induction l with
  | nil => rfl
  | cons a t ih => simp [List.isPrefixOf, ih]

theorem isPrefixOf_append_singleton_ne (l : FsPath) (a b : String) (h : a ≠ b) :
    (l ++ [a]).isPrefixOf (l ++ [b]) = false := by
  induction l with
  | nil => simp [List.isPrefixOf, h]
  | cons c t ih => simp [List.isPrefixOf, ih]

theorem append_singleton_ne (l : FsPath) (a b : String) (h : a ≠ b) :
    l ++ [a] ≠ l ++ [b] := by
  intro he
  simp only [List.append_cancel_left_eq, List.cons.injEq, and_true] at he
  exact h he

theorem file_createDirAll (fs : FS) (p q : FsPath) :
    (fs.createDirAll p).file q = fs.file q := rfl

theorem isDir_createDirAll (fs : FS) (p q : FsPath) :
    (fs.createDirAll p).isDir q = (fs.isDir q || q.isPrefixOf p) := rfl

theorem isDir_writeFile (fs : FS) (p : FsPath) (c : String) (q : FsPath) :
    (fs.writeFile p c).isDir q = fs.isDir q := rfl

theorem file_writeFile_self (fs : FS) (p : FsPath) (c : String) :
    (fs.writeFile p c).file p = some c := by
  simp [FS.writeFile]

theorem file_writeFile_ne (fs : FS) (p : FsPath) (c : String) (q : FsPath)
    (h : q ≠ p) : (fs.writeFile p c).file q = fs.file q := by
  simp [FS.writeFile, h]

theorem pathExists_createDirAll (fs : FS) (p q : FsPath)
    (h : q.isPrefixOf p = false) :
    (fs.createDirAll p).pathExists q = fs.pathExists q := by
  simp [FS.pathExists, FS.createDirAll, h]

theorem pathExists_writeFile_ne (fs : FS) (p : FsPath) (c : String) (q : FsPath)
    (h : q ≠ p) : (fs.writeFile p c).pathExists q = fs.pathExists q := by
  simp [FS.pathExists, FS.writeFile, h]

theorem seedFile_isDir (p : FsPath) (c : String) (fs : FS) (q : FsPath) :
    (seedFile p c fs).isDir q = fs.isDir q := by
  unfold seedFile
  split <;> rfl

theorem seedFile_file_ne (p : FsPath) (c : String) (fs : FS) (q : FsPath)
    (h : q ≠ p) : (seedFile p c fs).file q = fs.file q := by
  unfold seedFile
  split
  · rfl
  · exact file_writeFile_ne fs p c q h

theorem seedFile_pathExists_self (p : FsPath) (c : String) (fs : FS) :
    (seedFile p c fs).pathExists p = true := by
  unfold seedFile
  split
  · assumption
  · simp [FS.pathExists, file_writeFile_self]

theorem seedFile_pathExists_ne (p : FsPath) (c : String) (fs : FS) (q : FsPath)
    (h : q ≠ p) : (seedFile p c fs).pathExists q = fs.pathExists q := by
  unfold seedFile
  split
  · rfl
  · exact pathExists_writeFile_ne fs p c q h

theorem seedFile_of_present (p : FsPath) (c : String) (fs : FS)
    (h : fs.pathExists p = true) : seedFile p c fs = fs := by
  simp [seedFile, h]

theorem seedFile_file_absent (p : FsPath) (c : String) (fs : FS)
    (h : fs.pathExists p = false) : (seedFile p c fs).file p = some c := by
  simp [seedFile, h, file_writeFile_self]

theorem writeIfAbsent_ok (env : IOEnv) (p : FsPath) (c : String) (fs fs' : FS)
    (h : writeIfAbsent env p c fs = Except.ok fs') : fs' = seedFile p c fs := by
  unfold writeIfAbsent at h
  unfold seedFile
  split at h
  · rename_i hex
    rw [if_pos hex]
    injection h with h
    exact h.symm
  · rename_i hex
    rw [if_neg hex]
    split at h
    · simp at h
    · injection h with h
      exact h.symm

theorem init_ok (env : IOEnv) (d : FsPath) (fs : FS) (cd : FsPath) (fs' : FS)
    (h : init_claude_config_in env d fs = Except.ok (cd, fs')) :
    cd = d ++ [".claude"] ∧ fs' = initPure d fs := by
  unfold init_claude_config_in at h
  split at h
  · simp at h
  · simp only [] at h
    split at h
    · simp at h
    · rename_i fs2 h2
      split at h
      · simp at h
      · rename_i fs3 h3
        have e2 := writeIfAbsent_ok _ _ _ _ _ h2
        have e3 := writeIfAbsent_ok _ _ _ _ _ h3
        injection h with h
        injection h with hA hB
        subst hA
        subst hB
        refine ⟨rfl, ?_⟩
        rw [e3, e2]
        rfl

theorem initPure_isDir (d : FsPath) (fs : FS) (q : FsPath) :
    (initPure d fs).isDir q = (fs.isDir q || q.isPrefixOf (d ++ [".claude"])) := by
  unfold initPure
  rw [seedFile_isDir, seedFile_isDir, isDir_createDirAll]

theorem initPure_file_other (d : FsPath) (fs : FS) (q : FsPath)
    (h1 : q ≠ d ++ [".claude"] ++ ["CLAUDE.md"])
    (h2 : q ≠ d ++ [".claude"] ++ ["settings.json"]) :
    (initPure d fs).file q = fs.file q := by
  unfold initPure
  rw [seedFile_file_ne _ _ _ _ h2, seedFile_file_ne _ _ _ _ h1, file_createDirAll]

theorem initPure_md_absent (d : FsPath) (fs : FS)
    (h : fs.pathExists (d ++ [".claude"] ++ ["CLAUDE.md"]) = false) :
    (initPure d fs).file (d ++ [".claude"] ++ ["CLAUDE.md"]) = some DEFAULT_CLAUDE_MD := by
  unfold initPure
  rw [seedFile_file_ne _ _ _ _ (append_singleton_ne _ _ _ (by decide))]
  apply seedFile_file_absent
  rw [pathExists_createDirAll _ _ _ (append_singleton_isPrefixOf_false _ _)]
  exact h

theorem initPure_md_present (d : FsPath) (fs : FS)
    (h : fs.pathExists (d ++ [".claude"] ++ ["CLAUDE.md"]) = true) :
    (initPure d fs).file (d ++ [".claude"] ++ ["CLAUDE.md"]) =
      fs.file (d ++ [".claude"] ++ ["CLAUDE.md"]) := by
  unfold initPure
  have hA : (fs.createDirAll (d ++ [".claude"])).pathExists
      (d ++ [".claude"] ++ ["CLAUDE.md"]) = true := by
    rw [pathExists_createDirAll _ _ _ (append_singleton_isPrefixOf_false _ _)]
    exact h
  rw [seedFile_file_ne _ _ _ _ (append_singleton_ne _ _ _ (by decide)),
    seedFile_of_present _ _ _ hA, file_createDirAll]

theorem initPure_sj_absent (d : FsPath) (fs : FS)
    (h : fs.pathExists (d ++ [".claude"] ++ ["settings.json"]) = false) :
    (initPure d fs).file (d ++ [".claude"] ++ ["settings.json"]) =
      some DEFAULT_SETTINGS_JSON := by
  unfold initPure
  apply seedFile_file_absent
  rw [seedFile_pathExists_ne _ _ _ _ (append_singleton_ne _ _ _ (by decide)),
    pathExists_createDirAll _ _ _ (append_singleton_isPrefixOf_false _ _)]
  exact h

theorem initPure_sj_present (d : FsPath) (fs : FS)
    (h : fs.pathExists (d ++ [".claude"] ++ ["settings.json"]) = true) :
    (initPure d fs).file (d ++ [".claude"] ++ ["settings.json"]) =
      fs.file (d ++ [".claude"] ++ ["settings.json"]) := by
  unfold initPure
  have hA : (seedFile (d ++ [".claude"] ++ ["CLAUDE.md"]) DEFAULT_CLAUDE_MD
      (fs.createDirAll (d ++ [".claude"]))).pathExists
      (d ++ [".claude"] ++ ["settings.json"]) = true := by
    rw [seedFile_pathExists_ne _ _ _ _ (append_singleton_ne _ _ _ (by decide)),
      pathExists_createDirAll _ _ _ (append_singleton_isPrefixOf_false _ _)]
    exact h
  rw [seedFile_of_present _ _ _ hA,
    seedFile_file_ne _ _ _ _ (append_singleton_ne _ _ _ (by decide)),
    file_createDirAll]

theorem initPure_pathExists_md (d : FsPath) (fs : FS) :
    (initPure d fs).pathExists (d ++ [".claude"] ++ ["CLAUDE.md"]) = true := by
  unfold initPure
  rw [seedFile_pathExists_ne _ _ _ _ (append_singleton_ne _ _ _ (by decide))]
  exact seedFile_pathExists_self _ _ _

theorem initPure_pathExists_sj (d : FsPath) (fs : FS) :
    (initPure d fs).pathExists (d ++ [".claude"] ++ ["settings.json"]) = true := by
  unfold initPure
  exact seedFile_pathExists_self _ _ _

theorem initPure_isDir_cd (d : FsPath) (fs : FS) :
    (initPure d fs).isDir (d ++ [".claude"]) = true := by
  rw [initPure_isDir, isPrefixOf_self, Bool.or_true]

theorem initPure_initPure (d : FsPath) (fs : FS) :
    initPure d (initPure d fs) = initPure d fs := by
  have hc : (initPure d fs).createDirAll (d ++ [".claude"]) = initPure d fs := by
    ext q
    · rfl
    · rw [isDir_createDirAll, initPure_isDir, Bool.or_assoc, Bool.or_self]
  show seedFile (d ++ [".claude"] ++ ["settings.json"]) DEFAULT_SETTINGS_JSON
      (seedFile (d ++ [".claude"] ++ ["CLAUDE.md"]) DEFAULT_CLAUDE_MD
        ((initPure d fs).createDirAll (d ++ [".claude"]))) = initPure d fs
  rw [hc, seedFile_of_present _ _ _ (initPure_pathExists_md d fs),
    seedFile_of_present _ _ _ (initPure_pathExists_sj d fs)]

/-- C1: a successful `init_claude_config_in` writes each default resource
file exactly when nothing exists at its target path at the time of the call,
and content already present at the target path is left byte-for-byte
unchanged by seeding. -/
theorem init_seeds_iff_absent (env : IOEnv) (d : FsPath) (fs : FS)
    (cd : FsPath) (fs' : FS)
    (h : init_claude_config_in env d fs = Except.ok (cd, fs')) :
    ((fs.pathExists (d ++ [".claude"] ++ ["CLAUDE.md"]) = false →
        fs'.file (d ++ [".claude"] ++ ["CLAUDE.md"]) = some DEFAULT_CLAUDE_MD) ∧
      (fs.pathExists (d ++ [".claude"] ++ ["CLAUDE.md"]) = true →
        fs'.file (d ++ [".claude"] ++ ["CLAUDE.md"]) =
          fs.file (d ++ [".claude"] ++ ["CLAUDE.md"]))) ∧
    ((fs.pathExists (d ++ [".claude"] ++ ["settings.json"]) = false →
        fs'.file (d ++ [".claude"] ++ ["settings.json"]) = some DEFAULT_SETTINGS_JSON) ∧
      (fs.pathExists (d ++ [".claude"] ++ ["settings.json"]) = true →
        fs'.file (d ++ [".claude"] ++ ["settings.json"]) =
          fs.file (d ++ [".claude"] ++ ["settings.json"]))) := by
  obtain ⟨hcd, hfs⟩ := init_ok env d fs cd fs' h
  subst hfs
  exact ⟨⟨initPure_md_absent d fs, initPure_md_present d fs⟩,
    ⟨initPure_sj_absent d fs, initPure_sj_present d fs⟩⟩

/-- Witness for C1 at a concrete input: on the blank filesystem `CLAUDE.md`
is absent, and the first run seeds it with the default content. -/
theorem init_seeds_iff_absent_witness :
    FS.empty.pathExists mdW = false ∧ fsSeeded.file mdW = some DEFAULT_CLAUDE_MD := by
  have h : init_claude_config_in IOEnv.ok ["d"] FS.empty = Except.ok (cdW, fsSeeded) := rfl
  exact ⟨rfl, (init_seeds_iff_absent IOEnv.ok ["d"] FS.empty cdW fsSeeded h).1.1 rfl⟩

/-- C2: repeated `init_claude_config_in` on the same data directory creates
the `.claude` directory and both default resource files on the first
successful call, leaves the filesystem byte-identical on a subsequent call
when the caller has not modified it, and returns the same directory path on
every call. -/
theorem init_idempotent (env1 env2 : IOEnv) (d : FsPath) (fs : FS)
    (cd1 cd2 : FsPath) (fs1 fs2 : FS)
    (h1 : init_claude_config_in env1 d fs = Except.ok (cd1, fs1))
    (h2 : init_claude_config_in env2 d fs1 = Except.ok (cd2, fs2)) :
    cd1 = d ++ [".claude"] ∧ cd2 = cd1 ∧ fs2 = fs1 ∧
    fs1.isDir cd1 = true ∧
    fs1.pathExists (cd1 ++ ["CLAUDE.md"]) = true ∧
    fs1.pathExists (cd1 ++ ["settings.json"]) = true := by
  obtain ⟨hcd1, hfs1⟩ := init_ok env1 d fs cd1 fs1 h1
  obtain ⟨hcd2, hfs2⟩ := init_ok env2 d fs1 cd2 fs2 h2
  subst hfs1
  subst hfs2
  subst hcd1
  subst hcd2
  exact ⟨rfl, rfl, initPure_initPure d fs, initPure_isDir_cd d fs,
    initPure_pathExists_md d fs, initPure_pathExists_sj d fs⟩

/-- Witness for C2 at a concrete input: a second run on the state produced by
the first run returns the same state and path, and the resource files exist
after the first run. -/
theorem init_idempotent_witness :
    fsSeeded.createDirAll cdW = fsSeeded ∧ fsSeeded.pathExists mdW = true := by
  have h1 : init_claude_config_in IOEnv.ok ["d"] FS.empty = Except.ok (cdW, fsSeeded) := rfl
  have h2 : init_claude_config_in IOEnv.ok ["d"] fsSeeded =
      Except.ok (cdW, fsSeeded.createDirAll cdW) := rfl
  have t := init_idempotent IOEnv.ok IOEnv.ok ["d"] FS.empty cdW cdW fsSeeded
    (fsSeeded.createDirAll cdW) h1 h2
  exact ⟨t.2.2.1, t.2.2.2.2.1⟩

theorem rename_file_dst (fs : FS) (src dst : FsPath) :
    (fs.rename src dst).file dst = fs.file src := by
  simp [FS.rename, isPrefixOf_self, List.drop_length]

theorem rename_isDir_dst (fs : FS) (src dst : FsPath) :
    (fs.rename src dst).isDir dst = fs.isDir src := by
  simp [FS.rename, isPrefixOf_self, List.drop_length]

theorem rename_file_src (fs : FS) (src dst : FsPath)
    (h : dst.isPrefixOf src = false) : (fs.rename src dst).file src = none := by
  simp only [FS.rename, h, isPrefixOf_self]
  simp

theorem rename_isDir_src (fs : FS) (src dst : FsPath)
    (h : dst.isPrefixOf src = false) : (fs.rename src dst).isDir src = false := by
  simp only [FS.rename, h, isPrefixOf_self]
  simp

/-- C3: `migrate_legacy_db` renames the legacy store exactly under the
guard.  When `pluely.db` exists and `freely.db` does not (and the OS rename
succeeds), afterwards `freely.db` exists and carries the prior content of
`pluely.db`, and `pluely.db` no longer exists.  When `pluely.db` is absent,
the call changes nothing.  When both files exist, the call changes nothing
and `freely.db` is left untouched. -/
theorem migrate_legacy_db_cases (env : IOEnv) (d : FsPath) (fs : FS) :
    (env.renameErr = none →
      fs.pathExists (d ++ ["pluely.db"]) = true →
      fs.pathExists (d ++ ["freely.db"]) = false →
      ((migrate_legacy_db (Except.ok d) env fs).1.file (d ++ ["freely.db"]) =
          fs.file (d ++ ["pluely.db"]) ∧
        (migrate_legacy_db (Except.ok d) env fs).1.pathExists (d ++ ["freely.db"]) = true ∧
        (migrate_legacy_db (Except.ok d) env fs).1.pathExists (d ++ ["pluely.db"]) = false)) ∧
    (fs.pathExists (d ++ ["pluely.db"]) = false →
      migrate_legacy_db (Except.ok d) env fs = (fs, [])) ∧
    (fs.pathExists (d ++ ["pluely.db"]) = true →
      fs.pathExists (d ++ ["freely.db"]) = true →
      migrate_legacy_db (Except.ok d) env fs = (fs, [])) := by
  have hne : (d ++ ["freely.db"]).isPrefixOf (d ++ ["pluely.db"]) = false :=
    isPrefixOf_append_singleton_ne d "freely.db" "pluely.db" (by decide)
  refine ⟨?_, ?_, ?_⟩
  · intro hr h1 h2
    have hm : (migrate_legacy_db (Except.ok d) env fs).1 =
        fs.rename (d ++ ["pluely.db"]) (d ++ ["freely.db"]) := by
      simp [migrate_legacy_db, h1, h2, hr]
    refine ⟨?_, ?_, ?_⟩
    · rw [hm, rename_file_dst]
    · rw [hm]
      simp only [FS.pathExists] at h1 ⊢
      rw [rename_file_dst, rename_isDir_dst]
      exact h1
    · rw [hm]
      simp only [FS.pathExists]
      rw [rename_file_src _ _ _ hne, rename_isDir_src _ _ _ hne]
      rfl
  · intro h1
    simp [migrate_legacy_db, h1]
  · intro h1 h2
    simp [migrate_legacy_db, h1, h2]

/-- Witness for C3 at a concrete input: with only the legacy store present,
migration moves its content to `freely.db` and removes `pluely.db`. -/
theorem migrate_legacy_db_cases_witness :
    (migrate_legacy_db (Except.ok ["d"]) IOEnv.ok fsLegacy).1.file (["d"] ++ ["freely.db"]) =
      some "LEGACY-DATA" ∧
    (migrate_legacy_db (Except.ok ["d"]) IOEnv.ok fsLegacy).1.pathExists
      (["d"] ++ ["pluely.db"]) = false := by
  have t := (migrate_legacy_db_cases IOEnv.ok ["d"] fsLegacy).1 rfl rfl rfl
  exact ⟨t.1.trans rfl, t.2.2⟩

/-- C4: `migrate_legacy_db` never propagates an error and never aborts
startup: it is a total function into a state/log pair (no error channel in
its type), and each failure — path resolution or rename — leaves the
filesystem unchanged and produces a log line describing the failure. -/
theorem migrate_legacy_db_never_propagates (resolve : Except String FsPath)
    (env : IOEnv) (fs : FS) :
    (∀ e, resolve = Except.error e →
      migrate_legacy_db resolve env fs =
        (fs, ["[db] Could not resolve app data directory for legacy migration: " ++ e])) ∧
    (∀ d e, resolve = Except.ok d → env.renameErr = some e →
      fs.pathExists (d ++ ["pluely.db"]) = true →
      fs.pathExists (d ++ ["freely.db"]) = false →
      migrate_legacy_db resolve env fs =
        (fs, ["[db] Failed to rename pluely.db → freely.db: " ++ e])) := by
  constructor
  · intro e hres
    subst hres
    rfl
  · intro d e hres hr h1 h2
    subst hres
    simp [migrate_legacy_db, h1, h2, hr]

/-- Witness for C4 at concrete inputs: a resolution failure and a rename
failure each return normally with the filesystem unchanged and a log line. -/
theorem migrate_legacy_db_never_propagates_witness :
    migrate_legacy_db (Except.error "no data dir") IOEnv.ok FS.empty =
      (FS.empty,
        ["[db] Could not resolve app data directory for legacy migration: " ++ "no data dir"]) ∧
    migrate_legacy_db (Except.ok ["d"]) envRenameFail fsLegacy =
      (fsLegacy, ["[db] Failed to rename pluely.db → freely.db: " ++ "cross-device link"]) := by
  exact ⟨(migrate_legacy_db_never_propagates (Except.error "no data dir") IOEnv.ok
      FS.empty).1 "no data dir" rfl,
    (migrate_legacy_db_never_propagates (Except.ok ["d"]) envRenameFail fsLegacy).2
      ["d"] "cross-device link" rfl rfl rfl rfl⟩

/-- C5: `update_claude_md` overwrites the instructions document
unconditionally: after a successful call with resolved data directory `d`,
`CLAUDE.md` contains exactly the given content and the `.claude` directory
exists (re-created first if missing), regardless of the prior state. -/
theorem update_claude_md_overwrites (resolve : Except String FsPath)
    (env : IOEnv) (content : String) (fs : FS) (d : FsPath) (fs' : FS)
    (hres : resolve = Except.ok d)
    (h : update_claude_md resolve env content fs = Except.ok fs') :
    fs'.file (d ++ [".claude"] ++ ["CLAUDE.md"]) = some content ∧
    fs'.isDir (d ++ [".claude"]) = true := by
  subst hres
  unfold update_claude_md at h
  simp only [] at h
  split at h
  · simp at h
  · split at h
    · simp at h
    · injection h with h
      subst h
      constructor
      · exact file_writeFile_self _ _ _
      · rw [isDir_writeFile, isDir_createDirAll, isPrefixOf_self, Bool.or_true]

/-- Witness for C5 at a concrete input: updating on the blank filesystem
stores exactly the provided content. -/
theorem update_claude_md_overwrites_witness :
    ((FS.empty.createDirAll cdW).writeFile mdW "hello").file mdW = some "hello" := by
  have h : update_claude_md (Except.ok ["d"]) IOEnv.ok "hello" FS.empty =
      Except.ok ((FS.empty.createDirAll cdW).writeFile mdW "hello") := rfl
  exact (update_claude_md_overwrites (Except.ok ["d"]) IOEnv.ok "hello" FS.empty
    ["d"] _ rfl h).1

/-- C6 counterexample: after a successful `init_claude_config_in` on the
blank filesystem, nothing exists at `.claude/commands` — seeding does not
create a `commands` subdirectory, so the seeded directory does not contain
one. -/
theorem init_no_commands_dir :
    (init_claude_config_in IOEnv.ok ["d"] FS.empty).toOption.map
      (fun r => r.2.pathExists (r.1 ++ ["commands"])) = some false := by decide

/-- C6 amended: after a successful `init_claude_config_in` on `d` the
returned path is `d/.claude` and the seeded directory contains `CLAUDE.md`
and `settings.json`; a `commands` subdirectory is not created by seeding
(the `commands/*` entries of the layout are user-populated). -/
theorem init_layout (env : IOEnv) (d : FsPath) (fs : FS) (cd : FsPath) (fs' : FS)
    (h : init_claude_config_in env d fs = Except.ok (cd, fs')) :
    cd = d ++ [".claude"] ∧ fs'.isDir cd = true ∧
    fs'.pathExists (cd ++ ["CLAUDE.md"]) = true ∧
    fs'.pathExists (cd ++ ["settings.json"]) = true ∧
    (fs.pathExists (cd ++ ["commands"]) = false →
      fs'.pathExists (cd ++ ["commands"]) = false) := by
  obtain ⟨hcd, hfs⟩ := init_ok env d fs cd fs' h
  subst hfs
  subst hcd
  refine ⟨rfl, initPure_isDir_cd d fs, initPure_pathExists_md d fs,
    initPure_pathExists_sj d fs, ?_⟩
  intro hab
  unfold initPure
  rw [seedFile_pathExists_ne _ _ _ _ (append_singleton_ne _ _ _ (by decide)),
    seedFile_pathExists_ne _ _ _ _ (append_singleton_ne _ _ _ (by decide)),
    pathExists_createDirAll _ _ _ (append_singleton_isPrefixOf_false _ _)]
  exact hab

/-- Witness for C6 at a concrete input: the first run on the blank
filesystem yields the expected directory and resource files, and still no
`commands` subdirectory. -/
theorem init_layout_witness :
    fsSeeded.isDir cdW = true ∧ fsSeeded.pathExists mdW = true ∧
    fsSeeded.pathExists (cdW ++ ["commands"]) = false := by
  have h : init_claude_config_in IOEnv.ok ["d"] FS.empty = Except.ok (cdW, fsSeeded) := rfl
  have t := init_layout IOEnv.ok ["d"] FS.empty cdW fsSeeded h
  exact ⟨t.2.1, t.2.2.1, t.2.2.2.2 rfl⟩

/-- C7 counterexample: `init_claude_config_in` does modify a path other than
the `.claude` directory and the two default resource files — on the blank
filesystem it turns the missing parent `d` into a directory, because
`create_dir_all` creates every missing ancestor. -/
theorem init_creates_ancestor_dirs :
    (init_claude_config_in IOEnv.ok ["d"] FS.empty).toOption.map
      (fun r => r.2.isDir ["d"]) = some true ∧ FS.empty.isDir ["d"] = false :=
  ⟨by decide, rfl⟩

/-- C7 amended: a successful `init_claude_config_in` changes no file content
except possibly at the two default resource paths, and changes directory
status only at the `.claude` directory and its (possibly missing) ancestors,
which `create_dir_all` creates; in particular every user-created file or
subdirectory inside the config directory survives with content unchanged. -/
theorem init_frame (env : IOEnv) (d : FsPath) (fs : FS) (cd : FsPath) (fs' : FS)
    (h : init_claude_config_in env d fs = Except.ok (cd, fs')) :
    (∀ q, q ≠ cd ++ ["CLAUDE.md"] → q ≠ cd ++ ["settings.json"] →
      fs'.file q = fs.file q) ∧
    (∀ q, q.isPrefixOf cd = false → fs'.isDir q = fs.isDir q) := by
  obtain ⟨hcd, hfs⟩ := init_ok env d fs cd fs' h
  subst hfs
  subst hcd
  constructor
  · intro q h1 h2
    exact initPure_file_other d fs q h1 h2
  · intro q hq
    rw [initPure_isDir, hq, Bool.or_false]

/-- Witness for C7 at a concrete input: a user-created skill file inside
`.claude/commands` survives a run with its content unchanged. -/
theorem init_frame_witness :
    (((fsCanary.createDirAll cdW).writeFile mdW DEFAULT_CLAUDE_MD).writeFile sjW
        DEFAULT_SETTINGS_JSON).file ["d", ".claude", "commands", "canary.md"] =
      some "# Canary Skill" := by
  have h : init_claude_config_in IOEnv.ok ["d"] fsCanary =
      Except.ok (cdW, ((fsCanary.createDirAll cdW).writeFile mdW
        DEFAULT_CLAUDE_MD).writeFile sjW DEFAULT_SETTINGS_JSON) := rfl
  have t := (init_frame IOEnv.ok ["d"] fsCanary cdW _ h).1
    ["d", ".claude", "commands", "canary.md"] (by decide) (by decide)
  exact t.trans rfl

/-- C8: the default `settings.json` document parses as JSON, and its value
has a top-level `permissions` member whose `allow` and `deny` members are
arrays of strings. -/
theorem default_settings_json_shape :
    (Json.parse DEFAULT_SETTINGS_JSON).map settingsShape = some true := by decide

theorem writeIfAbsent_noerr (env : IOEnv) (p : FsPath) (c : String) (fs : FS)
    (h : env.writeErr p = none) :
    writeIfAbsent env p c fs = Except.ok (seedFile p c fs) := by
  unfold writeIfAbsent seedFile
  split
  · rfl
  · rw [h]

/-- C9: every filesystem failure in a Seeder operation is surfaced to the
caller as an error carrying a descriptive message naming the failed step —
directory creation and each resource write in `init_claude_config_in`,
directory creation and the write in `update_claude_md`, and the read
(including a missing file) in `get_claude_md`; no failure is swallowed and
the functions are total (no panic, no retry). -/
theorem seeder_errors_surfaced (env : IOEnv) (d : FsPath) (fs : FS)
    (content : String) (e : String) :
    (env.createDirErr = some e →
      init_claude_config_in env d fs =
        Except.error ("Failed to create .claude directory: " ++ e)) ∧
    (env.createDirErr = none →
      (fs.createDirAll (d ++ [".claude"])).pathExists
        (d ++ [".claude"] ++ ["CLAUDE.md"]) = false →
      env.writeErr (d ++ [".claude"] ++ ["CLAUDE.md"]) = some e →
      init_claude_config_in env d fs =
        Except.error ("Failed to write CLAUDE.md: " ++ e)) ∧
    (env.createDirErr = none →
      env.writeErr (d ++ [".claude"] ++ ["CLAUDE.md"]) = none →
      (seedFile (d ++ [".claude"] ++ ["CLAUDE.md"]) DEFAULT_CLAUDE_MD
          (fs.createDirAll (d ++ [".claude"]))).pathExists
        (d ++ [".claude"] ++ ["settings.json"]) = false →
      env.writeErr (d ++ [".claude"] ++ ["settings.json"]) = some e →
      init_claude_config_in env d fs =
        Except.error ("Failed to write settings.json: " ++ e)) ∧
    (env.createDirErr = some e →
      update_claude_md (Except.ok d) env content fs =
        Except.error ("Failed to create .claude directory: " ++ e)) ∧
    (env.createDirErr = none →
      env.writeErr (d ++ [".claude"] ++ ["CLAUDE.md"]) = some e →
      update_claude_md (Except.ok d) env content fs =
        Except.error ("Failed to write CLAUDE.md: " ++ e)) ∧
    (fs.file (d ++ [".claude", "CLAUDE.md"]) = none →
      (get_claude_md (Except.ok d) env fs).1 =
        Except.error ("Failed to read CLAUDE.md: " ++ env.notFoundMsg)) ∧
    (∀ c, fs.file (d ++ [".claude", "CLAUDE.md"]) = some c →
      env.readErr = some e →
      (get_claude_md (Except.ok d) env fs).1 =
        Except.error ("Failed to read CLAUDE.md: " ++ e)) := by
  refine ⟨?_, ?_, ?_, ?_, ?_, ?_, ?_⟩
  · intro h1
    unfold init_claude_config_in
    rw [h1]
  · intro h1 h2 h3
    unfold init_claude_config_in
    rw [h1]
    simp only []
    unfold writeIfAbsent
    rw [h2, h3]
    simp
  · intro h1 h2 h3 h4
    unfold init_claude_config_in
    rw [h1]
    simp only []
    rw [writeIfAbsent_noerr env _ _ _ h2]
    simp only []
    unfold writeIfAbsent
    rw [h3, h4]
    simp
  · intro h1
    unfold update_claude_md
    simp only []
    rw [h1]
  · intro h1 h2
    unfold update_claude_md
    simp only []
    rw [h1]
    simp only []
    rw [h2]
  · intro h1
    unfold get_claude_md fsReadToString
    simp only []
    rw [h1]
  · intro c h1 h2
    unfold get_claude_md fsReadToString
    simp only []
    rw [h1]
    simp only []
    rw [h2]

/-- Witness for C9 at concrete inputs: a directory-creation failure, a write
failure, a missing-file read, and a failing read are each surfaced as the
corresponding descriptive error. -/
theorem seeder_errors_surfaced_witness :
    init_claude_config_in envCreateFail ["d"] FS.empty =
      Except.error ("Failed to create .claude directory: " ++ "disk full") ∧
    init_claude_config_in envWriteFail ["d"] FS.empty =
      Except.error ("Failed to write CLAUDE.md: " ++ "permission denied") ∧
    (get_claude_md (Except.ok ["d"]) IOEnv.ok FS.empty).1 =
      Except.error ("Failed to read CLAUDE.md: " ++ IOEnv.ok.notFoundMsg) ∧
    (get_claude_md (Except.ok ["d"]) envReadFail fsSeeded).1 =
      Except.error ("Failed to read CLAUDE.md: " ++ "input error") := by
  refine ⟨(seeder_errors_surfaced envCreateFail ["d"] FS.empty "x" "disk full").1 rfl,
    (seeder_errors_surfaced envWriteFail ["d"] FS.empty "x" "permission denied").2.1
      rfl rfl rfl,
    (seeder_errors_surfaced IOEnv.ok ["d"] FS.empty "x" "y").2.2.2.2.2.1 rfl,
    (seeder_errors_surfaced envReadFail ["d"] fsSeeded "x" "input error").2.2.2.2.2.2
      DEFAULT_CLAUDE_MD rfl rfl⟩

/-- C10: `get_claude_md` never modifies the filesystem — the state after the
call is exactly the state before — and when `CLAUDE.md` is missing it
returns an error instead of seeding the file or creating the directory. -/
theorem get_claude_md_pure (resolve : Except String FsPath) (env : IOEnv)
    (fs : FS) :
    (get_claude_md resolve env fs).2 = fs ∧
    (∀ d, resolve = Except.ok d →
      fs.file (d ++ [".claude", "CLAUDE.md"]) = none →
      (get_claude_md resolve env fs).1 =
        Except.error ("Failed to read CLAUDE.md: " ++ env.notFoundMsg)) := by
  constructor
  · unfold get_claude_md
    split
    · rfl
    · simp only []
      split <;> rfl
  · intro d hres h1
    subst hres
    unfold get_claude_md fsReadToString
    simp only []
    rw [h1]

/-- Witness for C10 at a concrete input: reading from the blank filesystem
returns the not-found error and leaves the state untouched. -/
theorem get_claude_md_pure_witness :
    (get_claude_md (Except.ok ["d"]) IOEnv.ok FS.empty).2 = FS.empty ∧
    (get_claude_md (Except.ok ["d"]) IOEnv.ok FS.empty).1 =
      Except.error ("Failed to read CLAUDE.md: " ++ IOEnv.ok.notFoundMsg) := by
  have t := get_claude_md_pure (Except.ok ["d"]) IOEnv.ok FS.empty
  exact ⟨t.1, t.2 ["d"] rfl rfl⟩
